import Mathlib

/-!
Verification development for the `consent` authorization service.

The definitions below are shallow embeddings of the Go source:
pure functions are translated directly; the SQLite store becomes explicit
state passing over lists of rows; external effects (ECDSA, SHA-256, JSON,
base64, randomness, the network) become explicit oracle parameters so the
control flow of the translated functions stays exactly that of the source.
Machine integers are modelled as `Nat`/`Int`; bytes are `Nat` values.
-/

deriving instance DecidableEq for Except

namespace Consent

/-! ## Byte-level model of `math/big` integers

`big.Int.Bytes` returns the minimal big-endian byte representation
(empty for zero); `big.Int.SetBytes` folds bytes back into the integer.
-/

/-- Model of `(*big.Int).Bytes()`: minimal big-endian bytes, empty for 0. -/
def natToBytes : Nat → List Nat
  | 0 => []
  | n + 1 => natToBytes ((n + 1) / 256) ++ [(n + 1) % 256]
decreasing_by exact Nat.div_lt_self (Nat.succ_pos n) (by norm_num)

/-- Model of `(*big.Int).SetBytes`: interpret bytes as a big-endian integer. -/
def bytesToNat (bs : List Nat) : Nat :=
  bs.foldl (fun acc b => acc * 256 + b) 0

/-! ## Fixed-width ECDSA signature codec (`pkg/tokens/tokens.go`)

`encodeSignature` fills a 64-byte buffer: `r` right-aligned in bytes
`[0..32)`, `s` right-aligned in bytes `[32..64)`, leading bytes zero.
We model the 64-byte buffer itself (the Go function additionally
base64-encodes it; base64 is injective and outside the claim).
-/

/-- The 32-byte right-aligned field used for each half of the signature:
zero padding followed by the minimal big-endian bytes. This models
`copy(signature[32-len(b):32], b)` into a zeroed buffer. -/
def rightAlign32 (n : Nat) : List Nat :=
  List.replicate (32 - (natToBytes n).length) 0 ++ natToBytes n

/-- Model of `encodeSignature` (before base64): the 64-byte sequence with
`r` right-aligned in the first 32 bytes and `s` in the second 32 bytes. -/
def encodeSignature (r s : Nat) : List Nat :=
  rightAlign32 r ++ rightAlign32 s

/-- Model of `decodeSignature`: reject unless exactly 64 bytes, then read
the two halves back with `SetBytes`. -/
def decodeSignature (signature : List Nat) : Option (Nat × Nat) :=
  if signature.length = 64 then
    some (bytesToNat (signature.take 32), bytesToNat (signature.drop 32))
  else
    none

/-! ## Model of `strings.Split` / `strings.Join` on a one-character separator

Go's `strings.Split(s, sep)` with a non-empty separator splits around every
occurrence and yields `[""]` for the empty string; `strings.Join` is
interleaving with the separator. Both uses in the source (`"."` in
`validateStructure`, `" "` in the audience codec) have one-character
separators. -/

def splitOnCharList (c : Char) (l : List Char) : List (List Char) :=
  l.foldr
    (fun ch acc =>
      if ch = c then [] :: acc
      else
        match acc with
        | [] => [[ch]]
        | a :: as => (ch :: a) :: as)
    [[]]

/-- Model of `strings.Split(s, sep)` for a one-character `sep`. -/
def goSplit (c : Char) (s : String) : List String :=
  (splitOnCharList c s.toList).map (fun l => ⟨l⟩)

/-- Model of `strings.Join(l, " ")`. -/
def goJoin (l : List String) : String :=
  ⟨List.intercalate [' '] (l.map String.toList)⟩

/-! ## Go error values

Every error the token codec and the relying-party verifier manipulate is
either one of the package-level sentinels created with `errors.New`, or a
`*validateError` produced by `decodeToken`. `validateError` implements
`Context()` and `Error()` but not `Unwrap()`, so `errors.Is` can compare a
`*validateError` with a sentinel only by identity, which always fails. -/

inductive GoError where
  | errTokenMalformed
  | errTokenBadSignature
  | errTokenInvalidAudience
  | errTokenInvalidIssuer
  | errTokenExpired
  | errTokenNotIssued
  | errTokenAbsent
  | errTokenInvalid
  | errCSRFInvalid
  | errNetworkTokenRefresh
  | validateError (context : String) (inner : GoError)
deriving DecidableEq, Repr

/-- Model of `errors.Is(err, target)` for the error values above: direct
identity, then the unwrap loop — which stops immediately because none of
these types implements `Unwrap` or `Is` (in particular `validateError`
does not, so the wrapped sentinel is never reached). -/
def errorsIs (err target : GoError) : Bool :=
  match err with
  | .validateError _ _ => false
  | e => decide (e = target)

/-- Model of the `*validateError` struct returned by `decodeToken`:
a context string and the wrapped sentinel. -/
structure ValError where
  context : String
  err : GoError
deriving DecidableEq, Repr

/-- The `error` interface value a `*validateError` becomes when returned. -/
def ValError.toGoError (v : ValError) : GoError :=
  .validateError v.context v.err

/-! ## Token codec (`pkg/tokens`)

External primitives (base64, JSON, SHA-256, P-256) are oracle parameters;
the control flow of `decodeToken`, `verifySignature`, `verifyHeader` and
the claim `validate` methods is translated directly. -/

structure JWTHeader where
  Algorithm : String
  Typ : String
deriving DecidableEq, Repr

structure AccessTokenClaims where
  Expiration : Int
  IssuedAt : Int
  Issuer : String
  Audience : String
  Subject : String
deriving DecidableEq, Repr

structure RefreshTokenClaims where
  Expiration : Int
  IssuedAt : Int
  Issuer : String
  Audience : String
  Subject : String
  Secret : String
deriving DecidableEq, Repr

/-- The external codec primitives used by the token package:
`base64.RawURLEncoding.DecodeString`, `json.Unmarshal` at the two claim
types and the header type, and SHA-256. -/
structure Codecs where
  b64Decode : String → Option (List Nat)
  parseHeaderJSON : List Nat → Option JWTHeader
  parseAccessClaimsJSON : List Nat → Option AccessTokenClaims
  parseRefreshClaimsJSON : List Nat → Option RefreshTokenClaims
  hashMessage : String → List Nat

/-- The `Validator` interface. `ecdsaVerify` models `ecdsa.Verify` with the
implementation's verification key baked in. -/
structure Validator where
  ShouldValidateAudience : Bool
  ValidateDomain : String → Bool
  ValidateAudiences : String → Bool
  ecdsaVerify : List Nat → Nat → Nat → Bool

/-- `buildMessage`: `header_b64 + "." + claims_b64`. -/
def buildMessage (encHeader encClaims : String) : String :=
  encHeader ++ "." ++ encClaims

/-- Model of the package-level `verifySignature`: base64-decode the
signature, split into `(r, s)` via `decodeSignature`, recompute the digest
and ECDSA-verify. `true` means no error. -/
def verifySignatureOk (cs : Codecs) (v : Validator)
    (encHeader encClaims encSignature : String) : Bool :=
  match cs.b64Decode encSignature with
  | none => false
  | some signature =>
    match decodeSignature signature with
    | none => false
    | some (r, s) => v.ecdsaVerify (cs.hashMessage (buildMessage encHeader encClaims)) r s

/-- Model of `verifyHeader`: reject unless `typ == "JWT"` and
`alg == "ES256"`. `true` means no error. -/
def verifyHeaderOk (header : JWTHeader) : Bool :=
  header.Typ == "JWT" && header.Algorithm == "ES256"

/-- `time.Unix(sec, 0)` compared against a `time.Time` of nanosecond
resolution: we model instants as nanosecond counts. -/
def nsPerSecond : Int := 1000000000

def minuteNs : Int := 60 * nsPerSecond

def hourNs : Int := 60 * minuteNs

/-- Model of `AccessTokenClaims.validate`: the short-circuiting claim
checks, in source order, against a validator and the current time `now`
(nanoseconds). `none` means valid. -/
def AccessTokenClaims.validate (claims : AccessTokenClaims) (v : Validator)
    (now : Int) : Option GoError :=
  if claims.IssuedAt * nsPerSecond > now then some .errTokenNotIssued
  else if claims.Expiration * nsPerSecond < now then some .errTokenExpired
  else if ¬ v.ValidateDomain claims.Issuer then some .errTokenInvalidIssuer
  else if v.ShouldValidateAudience then
    if ¬ v.ValidateAudiences claims.Audience then some .errTokenInvalidAudience
    else none
  else none

/-- Model of `RefreshTokenClaims.validate` (same checks as the access
variant; the `Secret` claim is not validated). -/
def RefreshTokenClaims.validate (claims : RefreshTokenClaims) (v : Validator)
    (now : Int) : Option GoError :=
  if claims.IssuedAt * nsPerSecond > now then some .errTokenNotIssued
  else if claims.Expiration * nsPerSecond < now then some .errTokenExpired
  else if ¬ v.ValidateDomain claims.Issuer then some .errTokenInvalidIssuer
  else if v.ShouldValidateAudience then
    if ¬ v.ValidateAudiences claims.Audience then some .errTokenInvalidAudience
    else none
  else none

/-- The tail of `decodeToken[T]` once `validateStructure` has produced the
three segments: header decode, header verification, signature
verification, claims decode and claims validation, in source order, each
failure wrapped in a `validateError` carrying the sentinel the source
assigns. -/
def decodeTokenBody {T : Type} (parse : Codecs → List Nat → Option T)
    (validate : T → Validator → Int → Option GoError)
    (cs : Codecs) (v : Validator) (now : Int)
    (encHeader encClaims encSignature : String) : Except ValError T :=
  match cs.b64Decode encHeader with
  | none => .error ⟨"token header malformed", .errTokenMalformed⟩
  | some headerBytes =>
    match cs.parseHeaderJSON headerBytes with
    | none => .error ⟨"token header malformed", .errTokenMalformed⟩
    | some header =>
      if ¬ verifyHeaderOk header then
        .error ⟨"token header illegal", .errTokenBadSignature⟩
      else if ¬ verifySignatureOk cs v encHeader encClaims encSignature then
        .error ⟨"token signature illegal", .errTokenBadSignature⟩
      else
        match cs.b64Decode encClaims with
        | none => .error ⟨"token claims malformed", .errTokenMalformed⟩
        | some claimsBytes =>
          match parse cs claimsBytes with
          | none => .error ⟨"token claims malformed", .errTokenMalformed⟩
          | some claims =>
            match validate claims v now with
            | some e => .error ⟨"token claims invalid", e⟩
            | none => .ok claims

/-- Model of the generic `decodeToken[T]`, parameterized by the JSON parser
and `validate` method of the claims type `T`: the structure check
(`validateStructure`, split on `"."` and reject unless exactly three
segments), then `decodeTokenBody`. -/
def decodeTokenWith {T : Type} (parse : Codecs → List Nat → Option T)
    (validate : T → Validator → Int → Option GoError)
    (cs : Codecs) (v : Validator) (now : Int) (tokenStr : String) :
    Except ValError T :=
  match goSplit '.' tokenStr with
  | [encHeader, encClaims, encSignature] =>
    decodeTokenBody parse validate cs v now encHeader encClaims encSignature
  | _ => .error ⟨"token malformed", .errTokenMalformed⟩

/-- `decodeToken[*AccessTokenClaims]`. -/
def decodeToken (cs : Codecs) (v : Validator) (now : Int) (tokenStr : String) :
    Except ValError AccessTokenClaims :=
  decodeTokenWith (fun cs b => cs.parseAccessClaimsJSON b) AccessTokenClaims.validate
    cs v now tokenStr

/-- `decodeToken[*RefreshTokenClaims]`. -/
def decodeRefreshToken (cs : Codecs) (v : Validator) (now : Int) (tokenStr : String) :
    Except ValError RefreshTokenClaims :=
  decodeTokenWith (fun cs b => cs.parseRefreshClaimsJSON b) RefreshTokenClaims.validate
    cs v now tokenStr

/-- The error kind of a decode outcome (the sentinel wrapped in the
`validateError`, if any). -/
def decodeErr {T : Type} : Except ValError T → Option GoError
  | .error v => some v.err
  | .ok _ => none

/-! ## The two `Validator` implementations (`Server` / `Client` in
`pkg/tokens`) -/

/-- The server-role validator: does not enforce audience. -/
def serverValidator (ecdsaVerify : List Nat → Nat → Nat → Bool)
    (issuerDomain : String) : Validator :=
  { ShouldValidateAudience := false
    ValidateDomain := fun d => d == issuerDomain
    ValidateAudiences := fun _ => false
    ecdsaVerify := ecdsaVerify }

/-- The client-role validator: enforces that the space-split `aud` list
contains the configured audience (`slices.Contains` over
`strings.Split(audience, " ")`). -/
def clientValidator (ecdsaVerify : List Nat → Nat → Nat → Bool)
    (issuerDomain validAudience : String) : Validator :=
  { ShouldValidateAudience := true
    ValidateDomain := fun d => d == issuerDomain
    ValidateAudiences := fun audience => (goSplit ' ' audience).contains validAudience
    ecdsaVerify := ecdsaVerify }

/-! ## Token structs and the claims round trip (`access.go`, `refresh.go`)

`time.Time` fields are modelled at second resolution: only `.Unix()`
enters `intoClaims` and only `time.Unix(sec, 0)` leaves `fromClaims`. -/

structure AccessToken where
  issuer : String
  issuedAt : Int
  expiration : Int
  audience : List String
  subject : String
  encoded : String
deriving DecidableEq, Repr

def AccessToken.intoClaims (t : AccessToken) : AccessTokenClaims :=
  { Expiration := t.expiration
    IssuedAt := t.issuedAt
    Issuer := t.issuer
    Audience := goJoin t.audience
    Subject := t.subject }

def AccessToken.fromClaims (claims : AccessTokenClaims) (encToken : String) : AccessToken :=
  { issuer := claims.Issuer
    issuedAt := claims.IssuedAt
    expiration := claims.Expiration
    audience := goSplit ' ' claims.Audience
    subject := claims.Subject
    encoded := encToken }

structure RefreshToken where
  issuer : String
  issuedAt : Int
  expiration : Int
  audience : List String
  subject : String
  secret : String
  encoded : String
deriving DecidableEq, Repr

def RefreshToken.intoClaims (t : RefreshToken) : RefreshTokenClaims :=
  { Expiration := t.expiration
    IssuedAt := t.issuedAt
    Issuer := t.issuer
    Audience := goJoin t.audience
    Subject := t.subject
    Secret := t.secret }

def RefreshToken.fromClaims (claims : RefreshTokenClaims) (encToken : String) : RefreshToken :=
  { issuer := claims.Issuer
    issuedAt := claims.IssuedAt
    expiration := claims.Expiration
    audience := goSplit ' ' claims.Audience
    subject := claims.Subject
    secret := claims.Secret
    encoded := encToken }

/-- `RefreshToken.Decode`: run the codec, then `fromClaims`. -/
def RefreshToken.decode (cs : Codecs) (v : Validator) (now : Int)
    (encToken : String) : Except ValError RefreshToken :=
  match decodeRefreshToken cs v now encToken with
  | .error e => .error e
  | .ok claims => .ok (RefreshToken.fromClaims claims encToken)

/-! ## Relying-party verifier (`pkg/client/client.go`)

The verifier's dependencies — the token validator (via `Token.Decode`) and
the outbound POST to `/api/refresh` — are oracle fields of `ClientEnv`.
Cookie writes are collected in a list; `refreshCalled` records whether
`RefreshTokens` (the network refresh) was invoked. -/

structure Request where
  accessCookie : Option String
  refreshCookie : Option String

structure CookieWrite where
  name : String
  value : String
deriving DecidableEq, Repr

structure ClientEnv where
  decodeAccess : String → Except ValError AccessToken
  decodeRefresh : String → Except ValError RefreshToken
  refreshCall : String → Option (AccessToken × RefreshToken)

/-- `validateAccessToken`: read the `accessToken` cookie, decode it. -/
def validateAccessToken (env : ClientEnv) (r : Request) : Except GoError AccessToken :=
  match r.accessCookie with
  | none => .error .errTokenAbsent
  | some value =>
    match env.decodeAccess value with
    | .error e => .error e.toGoError
    | .ok token => .ok token

/-- `validateRefreshToken`: read the `refreshToken` cookie, decode it. -/
def validateRefreshToken (env : ClientEnv) (r : Request) : Except GoError RefreshToken :=
  match r.refreshCookie with
  | none => .error .errTokenAbsent
  | some value =>
    match env.decodeRefresh value with
    | .error e => .error e.toGoError
    | .ok token => .ok token

/-- `errorIsRefreshable`: `errors.Is(err, ErrTokenAbsent)` or
`errors.Is(err, tokens.ErrTokenExpired())`. -/
def errorIsRefreshable (e : GoError) : Bool :=
  errorsIs e .errTokenAbsent || errorsIs e .errTokenExpired

/-- `SetTokenCookies` (names and encoded values; `MaxAge` and the cookie
flags are constants not referenced by any claim). -/
def setTokenCookies (accessToken : AccessToken) (refreshToken : RefreshToken) :
    List CookieWrite :=
  [⟨"accessToken", accessToken.encoded⟩, ⟨"refreshToken", refreshToken.encoded⟩]

structure VerifyResult where
  token : Option AccessToken
  err : Option GoError
  writes : List CookieWrite
  refreshCalled : Bool
deriving DecidableEq, Repr

/-- Model of `Client.VerifyAuthorization`. -/
def VerifyAuthorization (env : ClientEnv) (r : Request) : VerifyResult :=
  match validateAccessToken env r with
  | .ok accessToken => ⟨some accessToken, none, [], false⟩
  | .error err =>
    if ¬ errorIsRefreshable err then ⟨none, some .errTokenInvalid, [], false⟩
    else
      match validateRefreshToken env r with
      | .error err2 =>
        if errorsIs err2 .errTokenAbsent then ⟨none, some .errTokenAbsent, [], false⟩
        else ⟨none, some .errTokenInvalid, [], false⟩
      | .ok refreshToken =>
        match env.refreshCall refreshToken.encoded with
        | none => ⟨none, some .errNetworkTokenRefresh, [], true⟩
        | some (newAccess, newRefresh) =>
          ⟨some newAccess, none, setTokenCookies newAccess newRefresh, true⟩

structure CSRFResult where
  token : Option AccessToken
  csrf : String
  err : Option GoError
  writes : List CookieWrite
  refreshCalled : Bool
deriving DecidableEq, Repr

/-- Model of `Client.VerifyAuthorizationCheckCSRF`. -/
def VerifyAuthorizationCheckCSRF (env : ClientEnv) (r : Request)
    (reqCSRFSecret : String) : CSRFResult :=
  match validateRefreshToken env r with
  | .error _ => ⟨none, "", some .errTokenInvalid, [], false⟩
  | .ok refreshToken =>
    if refreshToken.secret ≠ reqCSRFSecret then ⟨none, "", some .errCSRFInvalid, [], false⟩
    else
      match validateAccessToken env r with
      | .ok accessToken => ⟨some accessToken, refreshToken.secret, none, [], false⟩
      | .error err =>
        if ¬ errorIsRefreshable err then ⟨none, "", some .errTokenInvalid, [], false⟩
        else
          match env.refreshCall refreshToken.encoded with
          | none => ⟨none, "", some .errNetworkTokenRefresh, [], true⟩
          | some (newAccess, newRefresh) =>
            ⟨some newAccess, newRefresh.secret, none,
              setTokenCookies newAccess newRefresh, true⟩

/-! ## SQLite store (`database` package)

Two tables as lists of rows. The `refresh.jwt` column has no UNIQUE
constraint. `resultsEmpty` takes the outcome of `result.RowsAffected()`. -/

structure IdentityRow where
  id : Nat
  handle : String
  secret : List Nat
deriving DecidableEq, Repr

structure RefreshRow where
  id : Nat
  owner : Nat
  jwt : String
  expiration : Int
deriving DecidableEq, Repr

structure Store where
  identity : List IdentityRow
  refresh : List RefreshRow
  nextId : Nat
deriving DecidableEq, Repr

/-- `resultsEmpty`: `false` when `RowsAffected` itself errors, otherwise
`count == 0`. -/
def resultsEmpty (rowsAffected : Except String Nat) : Bool :=
  match rowsAffected with
  | .error _ => false
  | .ok count => count == 0

/-- The `JOIN identity i ON r.owner = i.id` condition of the DELETE. -/
def refreshRowJoined (st : Store) (row : RefreshRow) : Bool :=
  st.identity.any (fun i => i.id == row.owner)

/-- The number of rows the DELETE statement removes for `jwt`. -/
def deleteCount (st : Store) (jwt : String) : Nat :=
  (st.refresh.filter (fun row => row.jwt == jwt && refreshRowJoined st row)).length

/-- Model of `SQLiteStore.DeleteRefreshToken`: run the DELETE (an
injectable `execErr` models `db.Exec` failing), then
`deleted := !resultsEmpty(result)`. Returns (state, deleted, error). -/
def DeleteRefreshToken (st : Store) (execErr : Option String) (jwt : String) :
    Store × Bool × Option String :=
  match execErr with
  | some msg => (st, false, some ("could not delete from refresh: " ++ msg))
  | none =>
    let st1 := { st with
      refresh := st.refresh.filter (fun row => !(row.jwt == jwt && refreshRowJoined st row)) }
    (st1, !(resultsEmpty (.ok (deleteCount st jwt))), none)

/-- Model of `InsertRefreshToken` / `insertRefresh`:
`INSERT INTO refresh (owner, jwt, expiration) SELECT i.id, ?, ? FROM
identity i WHERE i.handle = ?` — one row per matching identity row. -/
def insertRefreshRow (st : Store) (handle jwt : String) (expiration : Int) : Store :=
  let owners := st.identity.filter (fun i => i.handle == handle)
  { st with
    refresh := st.refresh ++
      owners.enum.map (fun p => ⟨st.nextId + p.1, p.2.id, jwt, expiration⟩)
    nextId := st.nextId + owners.length }

/-- `GetSecret`: `SELECT secret FROM identity WHERE handle = ?`;
`none` models `sql.ErrNoRows`. -/
def GetSecret (st : Store) (handle : String) : Option (List Nat) :=
  (st.identity.find? (fun i => i.handle == handle)).map (fun i => i.secret)

/-! ## Service layer (`internal/service`) -/

inductive ServiceError where
  | errInvalidCredentials
  | errAccountNotFound
  | errServiceNotFound
  | errTokenInvalid
  | errTokenNotFound
  | errInvalidHandle
  | errHandleExists
  | errInternal
  | errUnclassified
deriving DecidableEq, Repr

/-- Model of a redirect `url.URL`: base plus query parameters. -/
structure Url where
  base : String
  query : List (String × String)
deriving DecidableEq, Repr

/-- `url.Values.Set`: replace any existing value for the key. -/
def urlQuerySet (q : List (String × String)) (key value : String) :
    List (String × String) :=
  q.filter (fun kv => kv.1 != key) ++ [(key, value)]

/-- `buildRedirectURL`: clone the service redirect and set `auth_code`. -/
def buildRedirectURL (redirect : Url) (refreshToken : String) : Url :=
  ⟨redirect.base, urlQuerySet redirect.query "auth_code" refreshToken⟩

structure ServiceDefinition where
  Display : String
  Audience : String
  Redirect : Url
deriving DecidableEq, Repr

/-- The dependencies of the `Service`: the token codec configuration,
bcrypt, the catalog, the token issuer, and an injectable store failure. -/
structure ServiceEnv where
  cs : Codecs
  v : Validator
  now : Int
  bcryptCompare : List Nat → String → Bool
  catalog : String → Option ServiceDefinition
  issueAccessToken : String → List String → Int → Option AccessToken
  issueRefreshToken : String → List String → Int → Option RefreshToken
  deleteFailure : Option String

/-- Model of `Service.RefreshTokens` (`internal/service/tokens.go`):
decode, then consume (DELETE), then mint and persist the new pair. -/
def Service.RefreshTokens (env : ServiceEnv) (st : Store)
    (encodedRefreshToken : String) :
    Store × Except ServiceError (String × String) :=
  match RefreshToken.decode env.cs env.v env.now encodedRefreshToken with
  | .error _ => (st, .error .errTokenInvalid)
  | .ok token =>
    let res := DeleteRefreshToken st env.deleteFailure encodedRefreshToken
    match res.2.2 with
    | some _ => (res.1, .error .errInternal)
    | none =>
      if ¬ res.2.1 then (res.1, .error .errTokenNotFound)
      else
        match env.issueAccessToken token.subject token.audience (30 * minuteNs) with
        | none => (res.1, .error .errInternal)
        | some accessToken =>
          match env.issueRefreshToken token.subject token.audience (72 * hourNs) with
          | none => (res.1, .error .errInternal)
          | some newRefreshToken =>
            let st2 := insertRefreshRow res.1 newRefreshToken.subject
              newRefreshToken.encoded newRefreshToken.expiration
            (st2, .ok (accessToken.encoded, newRefreshToken.encoded))

/-- Model of `Service.Login` (`internal/service/auth.go`). -/
def Service.Login (env : ServiceEnv) (st : Store)
    (handle secret serviceName : String) : Store × Except ServiceError Url :=
  match GetSecret st handle with
  | none => (st, .error .errAccountNotFound)
  | some hash =>
    if ¬ env.bcryptCompare hash secret then (st, .error .errInvalidCredentials)
    else
      match env.catalog serviceName with
      | none => (st, .error .errServiceNotFound)
      | some svcDef =>
        match env.issueRefreshToken handle [svcDef.Audience] (10 * nsPerSecond) with
        | none => (st, .error .errInternal)
        | some refreshToken =>
          let st1 := insertRefreshRow st refreshToken.subject
            refreshToken.encoded refreshToken.expiration
          (st1, .ok (buildRedirectURL svcDef.Redirect refreshToken.encoded))

/-! ## HTTP adapter (`internal/api`) -/

/-- Model of `httpStatusFromError`: the `errors.Is` switch over the service
sentinels (service errors are wrapped with `fmt.Errorf("%w: ...")`, which
unwraps back to the sentinel, so the kind determines the branch). -/
def httpStatusFromError (e : ServiceError) : Nat :=
  match e with
  | .errInvalidCredentials | .errAccountNotFound => 401
  | .errServiceNotFound | .errTokenInvalid | .errTokenNotFound
  | .errInvalidHandle => 400
  | .errHandleExists => 409
  | .errInternal => 500
  | .errUnclassified => 500

structure LoginRequest where
  Handle : String
  Secret : String
  Service : String
deriving DecidableEq, Repr

structure HttpRequest where
  contentType : String
  formValue : String → String
  jsonBody : Option LoginRequest

/-- The tail of the login handler after request parsing: run
`Service.Login`, map errors through `writeError`, otherwise redirect 303
to the built URL. Result: (status, Location, state). -/
def runLogin (env : ServiceEnv) (st : Store) (req : LoginRequest) :
    Nat × Option Url × Store :=
  match Service.Login env st req.Handle req.Secret req.Service with
  | (st1, .error e) => (httpStatusFromError e, none, st1)
  | (st1, .ok url) => (303, some url, st1)

/-- Model of `API.Login` (the `(a *API) Login()` handler). The source
declares `var req LoginRequest` before the `switch`; inside the
form-urlencoded case it assigns the form fields to a NEW `req` introduced
with `:=` (a shadowing declaration scoped to the case), checks that those
fields are non-empty, and then falls through to `a.service.Login(...)`
reading the OUTER `req` — which is still the zero value. The JSON case
decodes into the outer `req`. The model reproduces this flow exactly. -/
def API.Login (env : ServiceEnv) (st : Store) (r : HttpRequest) :
    Nat × Option Url × Store :=
  let req : LoginRequest := ⟨"", "", ""⟩
  if r.contentType = "application/x-www-form-urlencoded" then
    let reqForm : LoginRequest :=
      ⟨r.formValue "handle", r.formValue "secret", r.formValue "service"⟩
    if reqForm.Handle = "" ∨ reqForm.Secret = "" ∨ reqForm.Service = "" then
      (400, none, st)
    else
      runLogin env st req
  else if r.contentType = "application/json" then
    match r.jsonBody with
    | none => (400, none, st)
    | some reqJson => runLogin env st reqJson
  else
    (415, none, st)

/-! ## Concrete fixtures used by witnesses and closed evaluations -/

def hdrGood : JWTHeader := ⟨"ES256", "JWT"⟩

def hdrBad : JWTHeader := ⟨"HS256", "JWT"⟩

def claimsGood : AccessTokenClaims := ⟨100, 0, "dom", "aud", "alice"⟩

def claimsFuture : AccessTokenClaims := ⟨9999, 999, "dom", "aud", "alice"⟩

def claimsPast : AccessTokenClaims := ⟨10, 0, "dom", "aud", "alice"⟩

def claimsBadIss : AccessTokenClaims := ⟨100, 0, "other", "aud", "alice"⟩

def claimsBadAud : AccessTokenClaims := ⟨100, 0, "dom", "other", "alice"⟩

/-- A concrete `Codecs` oracle for witnesses: a tiny injective base64 /
JSON table. -/
def cw : Codecs :=
  { b64Decode := fun s =>
      if s = "H" then some [0]
      else if s = "HBAD" then some [2]
      else if s = "HNOJSON" then some [4]
      else if s = "C" then some [1]
      else if s = "CNOJSON" then some [5]
      else if s = "CFUT" then some [6]
      else if s = "CPAST" then some [7]
      else if s = "CISS" then some [8]
      else if s = "CAUD" then some [9]
      else if s = "S" then some (List.replicate 64 0)
      else if s = "SSHORT" then some [3]
      else if s = "SBAD" then some (List.replicate 63 0 ++ [1])
      else none
    parseHeaderJSON := fun b =>
      if b = [0] then some hdrGood else if b = [2] then some hdrBad else none
    parseAccessClaimsJSON := fun b =>
      if b = [1] then some claimsGood
      else if b = [6] then some claimsFuture
      else if b = [7] then some claimsPast
      else if b = [8] then some claimsBadIss
      else if b = [9] then some claimsBadAud
      else none
    parseRefreshClaimsJSON := fun _ => none
    hashMessage := fun _ => [] }

def vw : Validator := clientValidator (fun _ r s => r == 0 && s == 0) "dom" "aud"

def noww : Int := 50 * nsPerSecond

def refreshClaimsW : RefreshTokenClaims := ⟨100, 0, "dom", "aud", "alice", "sec"⟩

/-- Codec table for the service-layer fixtures (`"H.R.S"` decodes to
`refreshClaimsW`). -/
def csService : Codecs :=
  { b64Decode := fun s =>
      if s = "H" then some [0]
      else if s = "R" then some [1]
      else if s = "S" then some (List.replicate 64 0)
      else none
    parseHeaderJSON := fun b => if b = [0] then some hdrGood else none
    parseAccessClaimsJSON := fun _ => none
    parseRefreshClaimsJSON := fun b => if b = [1] then some refreshClaimsW else none
    hashMessage := fun _ => [] }

def newAccessW : AccessToken := ⟨"dom", 50, 1850, ["aud"], "alice", "AENC"⟩

def newRefreshW : RefreshToken := ⟨"dom", 50, 259250, ["aud"], "alice", "sec2", "RENC"⟩

def envService : ServiceEnv :=
  { cs := csService
    v := serverValidator (fun _ r s => r == 0 && s == 0) "dom"
    now := 50 * nsPerSecond
    bcryptCompare := fun hash secret => hash == [42] && secret == "pw"
    catalog := fun name =>
      if name = "test-service" then some ⟨"Test", "test-aud", ⟨"http://app/cb", []⟩⟩
      else none
    issueAccessToken := fun _ _ _ => some newAccessW
    issueRefreshToken := fun sub auds _ =>
      some { newRefreshW with subject := sub, audience := auds }
    deleteFailure := none }

def stW : Store :=
  { identity := [⟨1, "alice", [42]⟩]
    refresh := [⟨2, 1, "H.R.S", 100⟩]
    nextId := 3 }

def stWEmpty : Store :=
  { identity := [⟨1, "alice", [42]⟩]
    refresh := []
    nextId := 3 }

/-- A store holding TWO refresh rows with the same encoded JWT (the
`refresh.jwt` column has no UNIQUE constraint). -/
def stDup : Store :=
  { identity := [⟨1, "alice", [42]⟩]
    refresh := [⟨2, 1, "t", 0⟩, ⟨3, 1, "t", 0⟩]
    nextId := 4 }

def formReqW : HttpRequest :=
  { contentType := "application/x-www-form-urlencoded"
    formValue := fun k =>
      if k = "handle" then "alice"
      else if k = "secret" then "pw"
      else if k = "service" then "test-service"
      else ""
    jsonBody := none }

def jsonReqW : HttpRequest :=
  { contentType := "application/json"
    formValue := fun _ => ""
    jsonBody := some ⟨"alice", "pw", "test-service"⟩ }

def accW : AccessToken := ⟨"dom", 0, 100, ["aud"], "alice", "ACC"⟩

def refW : RefreshToken := ⟨"dom", 0, 100, ["aud"], "alice", "S", "REF"⟩

def newAccW : AccessToken := ⟨"dom", 50, 150, ["aud"], "alice", "ACC2"⟩

def newRefW : RefreshToken := ⟨"dom", 50, 150, ["aud"], "alice", "S2", "REF2"⟩

/-- Client-verifier fixture: valid access and refresh cookies, working
auth server. -/
def envCSRF : ClientEnv :=
  { decodeAccess := fun s =>
      if s = "ACC" then .ok accW
      else .error ⟨"token claims invalid", .errTokenExpired⟩
    decodeRefresh := fun s =>
      if s = "REF" then .ok refW
      else .error ⟨"token malformed", .errTokenMalformed⟩
    refreshCall := fun s => if s = "REF" then some (newAccW, newRefW) else none }

def reqCSRF : Request := ⟨some "ACC", some "REF"⟩

/-- Client-verifier fixture where the access cookie decodes to the
`Expired` error (wrapped in a `validateError`) while the refresh cookie is
valid and the auth server reachable. -/
def envExpired : ClientEnv :=
  { decodeAccess := fun _ => .error ⟨"token claims invalid", .errTokenExpired⟩
    decodeRefresh := fun s =>
      if s = "REF" then .ok refW
      else .error ⟨"token malformed", .errTokenMalformed⟩
    refreshCall := fun s => if s = "REF" then some (newAccW, newRefW) else none }

def reqExpired : Request := ⟨some "ACC", some "REF"⟩

/-! # Theorems -/

/-! ## Arithmetic facts about the byte model -/

theorem bytesToNat_append (xs ys : List Nat) :
    bytesToNat (xs ++ ys) = ys.foldl (fun acc b => acc * 256 + b) (bytesToNat xs) := by
  unfold bytesToNat
  rw [List.foldl_append]

theorem foldl_zero_replicate (k : Nat) (a : Nat) :
    (List.replicate k 0).foldl (fun acc b => acc * 256 + b) a = a * 256 ^ k := by
  induction k generalizing a with
  | zero => simp
  | succ k ih =>
    rw [List.replicate_succ, List.foldl_cons, ih]
    ring

theorem bytesToNat_replicate_zero_append (k : Nat) (bs : List Nat) :
    bytesToNat (List.replicate k 0 ++ bs) = bytesToNat bs := by
  unfold bytesToNat
  rw [List.foldl_append, foldl_zero_replicate]
  simp

theorem bytesToNat_natToBytes (n : Nat) : bytesToNat (natToBytes n) = n := by
  induction n using Nat.strong_induction_on with
  | _ n ih =>
    match n with
    | 0 => simp [natToBytes, bytesToNat]
    | k + 1 =>
      rw [natToBytes, bytesToNat_append]
      have hlt : (k + 1) / 256 < k + 1 := Nat.div_lt_self (Nat.succ_pos k) (by norm_num)
      rw [List.foldl_cons, List.foldl_nil, ih _ hlt]
      omega

theorem natToBytes_length_le (k : Nat) :
    ∀ n, n < 256 ^ k → (natToBytes n).length ≤ k := by
  induction k with
  | zero =>
    intro n hn
    interval_cases n
    simp [natToBytes]
  | succ k ih =>
    intro n hn
    match n with
    | 0 => simp [natToBytes]
    | m + 1 =>
      rw [natToBytes, List.length_append]
      have hdiv : (m + 1) / 256 < 256 ^ k := by
        rw [Nat.div_lt_iff_lt_mul (by norm_num : 0 < 256)]
        calc m + 1 < 256 ^ (k + 1) := hn
          _ = 256 ^ k * 256 := by rw [pow_succ]
      have := ih _ hdiv
      simpa using this

theorem rightAlign32_length (n : Nat) (h : n < 256 ^ 32) :
    (rightAlign32 n).length = 32 := by
  unfold rightAlign32
  have := natToBytes_length_le 32 n h
  rw [List.length_append, List.length_replicate]
  omega

theorem bytesToNat_rightAlign32 (n : Nat) : bytesToNat (rightAlign32 n) = n := by
  unfold rightAlign32
  rw [bytesToNat_replicate_zero_append, bytesToNat_natToBytes]

/-- C1: for every pair of non-negative integers `(r, s)` each representable
in at most 32 bytes, `encodeSignature` produces a 64-byte sequence with `r`
right-aligned (zero-padded) in bytes `[0..32)` and `s` right-aligned in
bytes `[32..64)`, and `decodeSignature` applied to that sequence returns
exactly `(r, s)`: `decodeSignature` is a left inverse of `encodeSignature`
on this domain. -/
theorem encodeSignature_decodeSignature_roundtrip (r s : Nat)
    (hr : r < 256 ^ 32) (hs : s < 256 ^ 32) :
    (encodeSignature r s).length = 64 ∧
    (encodeSignature r s).take 32 = List.replicate (32 - (natToBytes r).length) 0 ++ natToBytes r ∧
    (encodeSignature r s).drop 32 = List.replicate (32 - (natToBytes s).length) 0 ++ natToBytes s ∧
    decodeSignature (encodeSignature r s) = some (r, s) := by
  have hrl := rightAlign32_length r hr
  have hsl := rightAlign32_length s hs
  have hlen : (encodeSignature r s).length = 64 := by
    unfold encodeSignature
    rw [List.length_append, hrl, hsl]
  have htake : (encodeSignature r s).take 32 = rightAlign32 r := by
    unfold encodeSignature
    rw [List.take_append_of_le_length (by omega), ← hrl, List.take_length]
  have hdrop : (encodeSignature r s).drop 32 = rightAlign32 s := by
    unfold encodeSignature
    rw [← hrl, List.drop_left]
  refine ⟨hlen, htake, hdrop, ?_⟩
  unfold decodeSignature
  rw [if_pos hlen, htake, hdrop, bytesToNat_rightAlign32, bytesToNat_rightAlign32]

/-- Witness for C1 at `r = 1`, `s = 256` (both with many leading zero
bytes in their 32-byte fields). -/
theorem encodeSignature_decodeSignature_roundtrip_witness :
    (1 : Nat) < 256 ^ 32 ∧ (256 : Nat) < 256 ^ 32 ∧
    decodeSignature (encodeSignature 1 256) = some (1, 256) :=
  ⟨by norm_num, by norm_num,
    (encodeSignature_decodeSignature_roundtrip 1 256 (by norm_num) (by norm_num)).2.2.2⟩

/-- C10: the audience list survives encode/decode only through the
space-join/space-split encoding: the decoded `Audience()` equals splitting
the space-joined list on single spaces, for both token variants; a token
issued with the empty audience list decodes to `[""]` (a one-element list,
not the empty list — their equality test is `false`), and an entry that
itself contains a space splits into multiple entries (`["a b"]` comes back
as `["a", "b"]`, whose equality test against `["a b"]` is `false`), so
such lists do not round-trip. -/
theorem audience_space_join_split :
    (∀ (t : AccessToken) (enc : String),
        (AccessToken.fromClaims t.intoClaims enc).audience = goSplit ' ' (goJoin t.audience)) ∧
    (∀ (t : RefreshToken) (enc : String),
        (RefreshToken.fromClaims t.intoClaims enc).audience = goSplit ' ' (goJoin t.audience)) ∧
    goSplit ' ' (goJoin []) = [""] ∧
    (([""] : List String) == ([] : List String)) = false ∧
    goSplit ' ' (goJoin ["a b"]) = ["a", "b"] ∧
    (goSplit ' ' (goJoin ["a b"]) == ["a b"]) = false :=
  ⟨fun _ _ => rfl, fun _ _ => rfl, by decide, by decide, by decide, by decide⟩

/-- C8: the HTTP adapter maps every service-layer error kind to its status
code exactly as the taxonomy table states — `InvalidCredentials` and
`AccountNotFound` to 401 (and `Service.Login` produces `AccountNotFound`
for an unknown handle and `InvalidCredentials` for a bcrypt mismatch, so
the two are indistinguishable by status), `ServiceNotFound`,
`TokenInvalid`, `TokenNotFound` and `InvalidHandle` to 400, `HandleExists`
to 409, and `Internal` plus any unclassified error to 500. -/
theorem httpStatusFromError_taxonomy :
    httpStatusFromError .errInvalidCredentials = 401 ∧
    httpStatusFromError .errAccountNotFound = 401 ∧
    httpStatusFromError .errServiceNotFound = 400 ∧
    httpStatusFromError .errTokenInvalid = 400 ∧
    httpStatusFromError .errTokenNotFound = 400 ∧
    httpStatusFromError .errInvalidHandle = 400 ∧
    httpStatusFromError .errHandleExists = 409 ∧
    httpStatusFromError .errInternal = 500 ∧
    httpStatusFromError .errUnclassified = 500 ∧
    httpStatusFromError .errInvalidCredentials = httpStatusFromError .errAccountNotFound ∧
    (∀ (env : ServiceEnv) (st : Store) (handle secret svc : String),
      GetSecret st handle = none →
        (Service.Login env st handle secret svc).2 = .error .errAccountNotFound) ∧
    (∀ (env : ServiceEnv) (st : Store) (handle secret svc : String) (hash : List Nat),
      GetSecret st handle = some hash →
        env.bcryptCompare hash secret = false →
        (Service.Login env st handle secret svc).2 = .error .errInvalidCredentials) := by
  refine ⟨rfl, rfl, rfl, rfl, rfl, rfl, rfl, rfl, rfl, rfl, ?_, ?_⟩
  · intro env st handle secret svc h
    unfold Service.Login
    rw [h]
  · intro env st handle secret svc hash h hb
    unfold Service.Login
    rw [h]
    simp [hb]

/-- Witness for C8 at the concrete fixture store: unknown handle `bob` and
wrong password for `alice`. -/
theorem httpStatusFromError_taxonomy_witness :
    (Service.Login envService stW "bob" "pw" "test-service").2 =
      .error .errAccountNotFound ∧
    (Service.Login envService stW "alice" "bad" "test-service").2 =
      .error .errInvalidCredentials :=
  ⟨(httpStatusFromError_taxonomy).2.2.2.2.2.2.2.2.2.2.1 envService stW "bob" "pw"
      "test-service" (by decide),
    (httpStatusFromError_taxonomy).2.2.2.2.2.2.2.2.2.2.2 envService stW "alice" "bad"
      "test-service" [42] (by decide) (by decide)⟩

theorem length_filter_partition {α : Type} (p : α → Bool) (l : List α) :
    (l.filter p).length + (l.filter (fun a => !p a)).length = l.length := by
  induction l with
  | nil => rfl
  | cons a l ih =>
    by_cases h : p a <;> simp [List.filter_cons, h, ← ih] <;> omega

/-- C7 counterexample: with two stored rows sharing the encoded JWT `"t"`
(the `refresh.jwt` column has no UNIQUE constraint), the delete removes
TWO rows yet reports `deleted = true`, so `deleted = true` is not
equivalent to "exactly one row was removed". -/
theorem deleteRefreshToken_exactly_one_cex :
    (DeleteRefreshToken stDup none "t").2.1 = true ∧
    stDup.refresh.length - (DeleteRefreshToken stDup none "t").1.refresh.length = 2 := by
  decide

/-- C7 (amended): `DeleteRefreshToken(jwt)` returns `deleted = true` iff at
least one row was removed from the refresh table, and returns the store
error with `deleted = false` when the delete statement itself fails. -/
theorem deleteRefreshToken_deleted_iff_removed (st : Store) (execErr : Option String)
    (jwt : String) :
    (execErr = none →
      (((DeleteRefreshToken st execErr jwt).2.1 = true) ↔
        1 ≤ st.refresh.length - (DeleteRefreshToken st execErr jwt).1.refresh.length)) ∧
    (∀ msg, execErr = some msg →
      (DeleteRefreshToken st execErr jwt).1 = st ∧
      (DeleteRefreshToken st execErr jwt).2.1 = false ∧
      (DeleteRefreshToken st execErr jwt).2.2 =
        some ("could not delete from refresh: " ++ msg)) := by
  constructor
  · intro h
    subst h
    unfold DeleteRefreshToken
    simp only [resultsEmpty, deleteCount]
    have hpart := length_filter_partition
      (fun row => row.jwt == jwt && refreshRowJoined st row) st.refresh
    constructor
    · intro hd
      rw [Bool.not_eq_true', beq_eq_false_iff_ne] at hd
      omega
    · intro hge
      rw [Bool.not_eq_true', beq_eq_false_iff_ne]
      omega
  · intro msg h
    subst h
    unfold DeleteRefreshToken
    exact ⟨rfl, rfl, rfl⟩

/-- Witness for C7 (amended) at the fixture store (one matching row) and
at an injected statement failure. -/
theorem deleteRefreshToken_deleted_iff_removed_witness :
    (((DeleteRefreshToken stW none "H.R.S").2.1 = true) ↔
      1 ≤ stW.refresh.length - (DeleteRefreshToken stW none "H.R.S").1.refresh.length) ∧
    (DeleteRefreshToken stW (some "boom") "H.R.S").2.1 = false :=
  ⟨(deleteRefreshToken_deleted_iff_removed stW none "H.R.S").1 rfl,
    ((deleteRefreshToken_deleted_iff_removed stW (some "boom") "H.R.S").2 "boom" rfl).2.1⟩

theorem decodeTokenWith_not_three {T : Type} (parse : Codecs → List Nat → Option T)
    (validate : T → Validator → Int → Option GoError) (cs : Codecs) (v : Validator)
    (now : Int) (tokenStr : String)
    (h : (goSplit '.' tokenStr).length ≠ 3) :
    decodeTokenWith parse validate cs v now tokenStr =
      .error ⟨"token malformed", .errTokenMalformed⟩ := by
  unfold decodeTokenWith
  rcases hs : goSplit '.' tokenStr with _ | ⟨a, _ | ⟨b, _ | ⟨c, _ | ⟨d, rest⟩⟩⟩⟩
  · rfl
  · rfl
  · rfl
  · rw [hs] at h
    simp at h
  · rfl

/-- C2: token decoding classifies failures in the fixed source order,
returning the first failing kind: not exactly three dot-separated
segments, a non-base64 header or a non-JSON header fail `Malformed`; a
header with `typ ≠ "JWT"` or `alg ≠ "ES256"` fails `BadSignature`; a
signature segment that is not base64, not exactly 64 bytes, or that does
not ECDSA-verify fails `BadSignature`; a non-base64 or non-JSON claims
segment fails `Malformed`; then claim validation returns `NotIssued` if
`iat` is in the future, else `Expired` if `exp` is in the past, else
`InvalidIssuer` if `iss` does not match the validator's issuer, else
`InvalidAudience` if the validator enforces audience and the audience
check fails, else the decode succeeds with the parsed claims. -/
theorem decodeToken_error_classification
    (cs : Codecs) (v : Validator) (now : Int) (tokenStr : String) :
    ((goSplit '.' tokenStr).length ≠ 3 →
      decodeErr (decodeToken cs v now tokenStr) = some .errTokenMalformed) ∧
    (∀ encHeader encClaims encSignature,
      goSplit '.' tokenStr = [encHeader, encClaims, encSignature] →
      ((cs.b64Decode encHeader = none →
          decodeErr (decodeToken cs v now tokenStr) = some .errTokenMalformed) ∧
       (∀ hb, cs.b64Decode encHeader = some hb →
          cs.parseHeaderJSON hb = none →
          decodeErr (decodeToken cs v now tokenStr) = some .errTokenMalformed) ∧
       (∀ hb header, cs.b64Decode encHeader = some hb →
          cs.parseHeaderJSON hb = some header →
          verifyHeaderOk header = false →
          decodeErr (decodeToken cs v now tokenStr) = some .errTokenBadSignature) ∧
       (∀ hb header, cs.b64Decode encHeader = some hb →
          cs.parseHeaderJSON hb = some header →
          verifyHeaderOk header = true →
          ((cs.b64Decode encSignature = none →
              decodeErr (decodeToken cs v now tokenStr) = some .errTokenBadSignature) ∧
           (∀ sig, cs.b64Decode encSignature = some sig →
              sig.length ≠ 64 →
              decodeErr (decodeToken cs v now tokenStr) = some .errTokenBadSignature) ∧
           (∀ sig r s, cs.b64Decode encSignature = some sig →
              decodeSignature sig = some (r, s) →
              v.ecdsaVerify (cs.hashMessage (buildMessage encHeader encClaims)) r s = false →
              decodeErr (decodeToken cs v now tokenStr) = some .errTokenBadSignature) ∧
           (verifySignatureOk cs v encHeader encClaims encSignature = true →
            ((cs.b64Decode encClaims = none →
                decodeErr (decodeToken cs v now tokenStr) = some .errTokenMalformed) ∧
             (∀ cb, cs.b64Decode encClaims = some cb →
                cs.parseAccessClaimsJSON cb = none →
                decodeErr (decodeToken cs v now tokenStr) = some .errTokenMalformed) ∧
             (∀ cb claims, cs.b64Decode encClaims = some cb →
                cs.parseAccessClaimsJSON cb = some claims →
                ((claims.IssuedAt * nsPerSecond > now →
                    decodeErr (decodeToken cs v now tokenStr) = some .errTokenNotIssued) ∧
                 (claims.IssuedAt * nsPerSecond ≤ now →
                    claims.Expiration * nsPerSecond < now →
                    decodeErr (decodeToken cs v now tokenStr) = some .errTokenExpired) ∧
                 (claims.IssuedAt * nsPerSecond ≤ now →
                    now ≤ claims.Expiration * nsPerSecond →
                    v.ValidateDomain claims.Issuer = false →
                    decodeErr (decodeToken cs v now tokenStr) = some .errTokenInvalidIssuer) ∧
                 (claims.IssuedAt * nsPerSecond ≤ now →
                    now ≤ claims.Expiration * nsPerSecond →
                    v.ValidateDomain claims.Issuer = true →
                    v.ShouldValidateAudience = true →
                    v.ValidateAudiences claims.Audience = false →
                    decodeErr (decodeToken cs v now tokenStr) = some .errTokenInvalidAudience) ∧
                 (claims.IssuedAt * nsPerSecond ≤ now →
                    now ≤ claims.Expiration * nsPerSecond →
                    v.ValidateDomain claims.Issuer = true →
                    (v.ShouldValidateAudience = false ∨
                      v.ValidateAudiences claims.Audience = true) →
                    decodeToken cs v now tokenStr = .ok claims))))))))) := by
  constructor
  · intro h
    rw [decodeToken, decodeTokenWith_not_three _ _ _ _ _ _ h]
    rfl
  · intro eh ec es hsplit
    have hd : decodeToken cs v now tokenStr =
        decodeTokenBody (fun cs b => cs.parseAccessClaimsJSON b)
          AccessTokenClaims.validate cs v now eh ec es := by
      unfold decodeToken decodeTokenWith
      rw [hsplit]
    refine ⟨?_, ?_, ?_, ?_⟩
    · intro hb64h
      rw [hd]
      unfold decodeTokenBody
      rw [hb64h]
      rfl
    · intro hb hb64h hparse
      rw [hd]
      unfold decodeTokenBody
      rw [hb64h]
      simp [hparse, decodeErr]
    · intro hb header hb64h hparse hvh
      rw [hd]
      unfold decodeTokenBody
      rw [hb64h]
      simp [hparse, hvh, decodeErr]
    · intro hb header hb64h hparse hvh
      have hvsig : ∀ hfail : verifySignatureOk cs v eh ec es = false,
          decodeErr (decodeToken cs v now tokenStr) = some .errTokenBadSignature := by
        intro hfail
        rw [hd]
        unfold decodeTokenBody
        rw [hb64h]
        simp [hparse, hvh, hfail, decodeErr]
      refine ⟨?_, ?_, ?_, ?_⟩
      · intro hsig
        refine hvsig ?_
        unfold verifySignatureOk
        simp [hsig]
      · intro sig hsig hlen
        refine hvsig ?_
        unfold verifySignatureOk decodeSignature
        simp [hsig, hlen]
      · intro sig r s hsig hdec hec
        refine hvsig ?_
        unfold verifySignatureOk
        simp [hsig, hdec, hec]
      · intro hvs
        refine ⟨?_, ?_, ?_⟩
        · intro hb64c
          rw [hd]
          unfold decodeTokenBody
          rw [hb64h]
          simp [hparse, hvh, hvs, hb64c, decodeErr]
        · intro cb hb64c hpc
          rw [hd]
          unfold decodeTokenBody
          rw [hb64h]
          simp [hparse, hvh, hvs, hb64c, hpc, decodeErr]
        · intro cb claims hb64c hpc
          have hreach : ∀ res, AccessTokenClaims.validate claims v now = res →
              decodeToken cs v now tokenStr =
                (match res with
                 | some e => .error ⟨"token claims invalid", e⟩
                 | none => .ok claims) := by
            intro res hres
            rw [hd]
            unfold decodeTokenBody
            rw [hb64h]
            simp [hparse, hvh, hvs, hb64c, hpc, hres]
          refine ⟨?_, ?_, ?_, ?_, ?_⟩
          · intro hiat
            rw [hreach (some .errTokenNotIssued) ?_]
            · rfl
            · unfold AccessTokenClaims.validate
              rw [if_pos hiat]
          · intro hiat hexp
            rw [hreach (some .errTokenExpired) ?_]
            · rfl
            · unfold AccessTokenClaims.validate
              rw [if_neg (by omega), if_pos hexp]
          · intro hiat hexp hdom
            rw [hreach (some .errTokenInvalidIssuer) ?_]
            · rfl
            · unfold AccessTokenClaims.validate
              rw [if_neg (by omega), if_neg (by omega), if_pos (by simp [hdom])]
          · intro hiat hexp hdom hsva hva
            rw [hreach (some .errTokenInvalidAudience) ?_]
            · rfl
            · unfold AccessTokenClaims.validate
              rw [if_neg (by omega), if_neg (by omega), if_neg (by simp [hdom]),
                if_pos hsva, if_pos (by simp [hva])]
          · intro hiat hexp hdom haud
            rw [hreach none ?_]
            unfold AccessTokenClaims.validate
            rw [if_neg (by omega), if_neg (by omega), if_neg (by simp [hdom])]
            rcases haud with h | h
            · rw [h]
              simp
            · simp [h]

/-- Witness for C2: every branch of the classification evaluated at
concrete tokens over the fixture codec `cw` and client validator `vw`. -/
theorem decodeToken_error_classification_witness :
    decodeErr (decodeToken cw vw noww "ab") = some .errTokenMalformed ∧
    decodeErr (decodeToken cw vw noww "Z.C.S") = some .errTokenMalformed ∧
    decodeErr (decodeToken cw vw noww "HNOJSON.C.S") = some .errTokenMalformed ∧
    decodeErr (decodeToken cw vw noww "HBAD.C.S") = some .errTokenBadSignature ∧
    decodeErr (decodeToken cw vw noww "H.C.Z") = some .errTokenBadSignature ∧
    decodeErr (decodeToken cw vw noww "H.C.SSHORT") = some .errTokenBadSignature ∧
    decodeErr (decodeToken cw vw noww "H.C.SBAD") = some .errTokenBadSignature ∧
    decodeErr (decodeToken cw vw noww "H.Z.S") = some .errTokenMalformed ∧
    decodeErr (decodeToken cw vw noww "H.CNOJSON.S") = some .errTokenMalformed ∧
    decodeErr (decodeToken cw vw noww "H.CFUT.S") = some .errTokenNotIssued ∧
    decodeErr (decodeToken cw vw noww "H.CPAST.S") = some .errTokenExpired ∧
    decodeErr (decodeToken cw vw noww "H.CISS.S") = some .errTokenInvalidIssuer ∧
    decodeErr (decodeToken cw vw noww "H.CAUD.S") = some .errTokenInvalidAudience ∧
    decodeToken cw vw noww "H.C.S" = .ok claimsGood := by
  refine ⟨?_, ?_, ?_, ?_, ?_, ?_, ?_, ?_, ?_, ?_, ?_, ?_, ?_, ?_⟩
  · exact (decodeToken_error_classification cw vw noww "ab").1 (by decide)
  · exact ((decodeToken_error_classification cw vw noww "Z.C.S").2 "Z" "C" "S"
      (by decide)).1 (by decide)
  · exact (((decodeToken_error_classification cw vw noww "HNOJSON.C.S").2 "HNOJSON" "C" "S"
      (by decide)).2.1) [4] (by decide) (by decide)
  · exact (((decodeToken_error_classification cw vw noww "HBAD.C.S").2 "HBAD" "C" "S"
      (by decide)).2.2.1) [2] hdrBad (by decide) (by decide) (by decide)
  · exact ((((decodeToken_error_classification cw vw noww "H.C.Z").2 "H" "C" "Z"
      (by decide)).2.2.2) [0] hdrGood (by decide) (by decide) (by decide)).1 (by decide)
  · exact ((((decodeToken_error_classification cw vw noww "H.C.SSHORT").2 "H" "C" "SSHORT"
      (by decide)).2.2.2) [0] hdrGood (by decide) (by decide) (by decide)).2.1
      [3] (by decide) (by decide)
  · exact ((((decodeToken_error_classification cw vw noww "H.C.SBAD").2 "H" "C" "SBAD"
      (by decide)).2.2.2) [0] hdrGood (by decide) (by decide) (by decide)).2.2.1
      (List.replicate 63 0 ++ [1]) 0 1 (by decide) (by decide) (by decide)
  · exact (((((decodeToken_error_classification cw vw noww "H.Z.S").2 "H" "Z" "S"
      (by decide)).2.2.2) [0] hdrGood (by decide) (by decide) (by decide)).2.2.2
      (by decide)).1 (by decide)
  · exact (((((decodeToken_error_classification cw vw noww "H.CNOJSON.S").2 "H" "CNOJSON" "S"
      (by decide)).2.2.2) [0] hdrGood (by decide) (by decide) (by decide)).2.2.2
      (by decide)).2.1 [5] (by decide) (by decide)
  · exact ((((((decodeToken_error_classification cw vw noww "H.CFUT.S").2 "H" "CFUT" "S"
      (by decide)).2.2.2) [0] hdrGood (by decide) (by decide) (by decide)).2.2.2
      (by decide)).2.2 [6] claimsFuture (by decide) (by decide)).1 (by decide)
  · exact ((((((decodeToken_error_classification cw vw noww "H.CPAST.S").2 "H" "CPAST" "S"
      (by decide)).2.2.2) [0] hdrGood (by decide) (by decide) (by decide)).2.2.2
      (by decide)).2.2 [7] claimsPast (by decide) (by decide)).2.1 (by decide) (by decide)
  · exact ((((((decodeToken_error_classification cw vw noww "H.CISS.S").2 "H" "CISS" "S"
      (by decide)).2.2.2) [0] hdrGood (by decide) (by decide) (by decide)).2.2.2
      (by decide)).2.2 [8] claimsBadIss (by decide) (by decide)).2.2.1
      (by decide) (by decide) (by decide)
  · exact ((((((decodeToken_error_classification cw vw noww "H.CAUD.S").2 "H" "CAUD" "S"
      (by decide)).2.2.2) [0] hdrGood (by decide) (by decide) (by decide)).2.2.2
      (by decide)).2.2 [9] claimsBadAud (by decide) (by decide)).2.2.2.1
      (by decide) (by decide) (by decide) (by decide) (by decide)
  · exact ((((((decodeToken_error_classification cw vw noww "H.C.S").2 "H" "C" "S"
      (by decide)).2.2.2) [0] hdrGood (by decide) (by decide) (by decide)).2.2.2
      (by decide)).2.2 [1] claimsGood (by decide) (by decide)).2.2.2.2
      (by decide) (by decide) (by decide) (Or.inr (by decide))

/-- C4: the server-role validator never rejects a token on audience grounds
(its `ShouldValidateAudience` is `false`, so `validate` can never return
`errTokenInvalidAudience`), while the client-role validator enforces
audience: for every claims set passing the time and issuer checks, if the
space-split `aud` list does not contain the client's configured audience
the result is `errTokenInvalidAudience`, and if it does contain it the
validation succeeds. -/
theorem validator_audience_roles
    (ev : List Nat → Nat → Nat → Bool) (domain aud : String)
    (claims : AccessTokenClaims) (now : Int)
    (hiat : ¬ claims.IssuedAt * nsPerSecond > now)
    (hexp : ¬ claims.Expiration * nsPerSecond < now)
    (hiss : claims.Issuer = domain) :
    (∀ (c2 : AccessTokenClaims) (now2 : Int),
        decide (AccessTokenClaims.validate c2 (serverValidator ev domain) now2 =
          some .errTokenInvalidAudience) = false) ∧
    ((goSplit ' ' claims.Audience).contains aud = false →
        AccessTokenClaims.validate claims (clientValidator ev domain aud) now =
          some .errTokenInvalidAudience) ∧
    ((goSplit ' ' claims.Audience).contains aud = true →
        AccessTokenClaims.validate claims (clientValidator ev domain aud) now = none) := by
  refine ⟨?_, ?_, ?_⟩
  · intro c2 now2
    rw [decide_eq_false_iff_not]
    unfold AccessTokenClaims.validate serverValidator
    split_ifs <;> simp
  · intro hc
    unfold AccessTokenClaims.validate clientValidator
    simp only [hiat, hexp, hiss]
    simp
    simpa using hc
  · intro hc
    unfold AccessTokenClaims.validate clientValidator
    simp only [hiat, hexp, hiss]
    simp
    simpa using hc

/-- Witness for C4 at concrete claims: `aud = "x y"` does not contain
`"aud"` and is rejected; `claimsGood` with `aud = "aud"` is accepted; the
server validator does not reject either on audience. -/
theorem validator_audience_roles_witness :
    decide (AccessTokenClaims.validate claimsBadAud
      (serverValidator (fun _ _ _ => true) "dom") noww =
        some .errTokenInvalidAudience) = false ∧
    AccessTokenClaims.validate claimsBadAud
      (clientValidator (fun _ _ _ => true) "dom" "aud") noww =
        some .errTokenInvalidAudience ∧
    AccessTokenClaims.validate claimsGood
      (clientValidator (fun _ _ _ => true) "dom" "aud") noww = none :=
  ⟨(validator_audience_roles (fun _ _ _ => true) "dom" "aud" claimsBadAud noww
      (by decide) (by decide) (by decide)).1 claimsBadAud noww,
    (validator_audience_roles (fun _ _ _ => true) "dom" "aud" claimsBadAud noww
      (by decide) (by decide) (by decide)).2.1 (by decide),
    (validator_audience_roles (fun _ _ _ => true) "dom" "aud" claimsGood noww
      (by decide) (by decide) (by decide)).2.2 (by decide)⟩

theorem filter_not_eq_self_of_count_zero {α : Type} (p : α → Bool) (l : List α)
    (h : (l.filter p).length = 0) : l.filter (fun a => !p a) = l := by
  induction l with
  | nil => rfl
  | cons a l ih =>
    rw [List.filter_cons] at h ⊢
    by_cases hpa : p a
    · simp [hpa] at h
    · simp only [hpa, Bool.not_false, if_true, if_false] at h ⊢
      simp [ih h]

theorem filter_nil_of_all_false {α : Type} (p : α → Bool) (l : List α)
    (h : ∀ a ∈ l, p a = false) : l.filter p = [] := by
  induction l with
  | nil => rfl
  | cons a l ih =>
    rw [List.filter_cons, h a (List.mem_cons_self a l)]
    exact ih (fun b hb => h b (List.mem_cons_of_mem a hb))

theorem refreshRowJoined_identity {st st2 : Store} (h : st2.identity = st.identity)
    (row : RefreshRow) : refreshRowJoined st2 row = refreshRowJoined st row := by
  unfold refreshRowJoined
  rw [h]

/-- C3: the refresh operation consumes before it mints: for every store
state and every refresh token that decodes successfully, if the DELETE of
the record keyed by the encoded string removes zero rows the operation
fails `TokenNotFound` with no new tokens issued and the store unchanged;
and when it succeeds (the delete removed rows and the issuer produced the
fresh pair, whose encoded refresh string differs from the consumed one),
a second refresh of the same encoded token on the resulting store fails
`TokenNotFound` and leaves that store unchanged. -/
theorem refreshTokens_consume_first
    (env : ServiceEnv) (st : Store) (enc : String) (tok : RefreshToken)
    (hdb : env.deleteFailure = none)
    (hdec : RefreshToken.decode env.cs env.v env.now enc = .ok tok)
    (hfresh : ∀ nt, env.issueRefreshToken tok.subject tok.audience (72 * hourNs) = some nt →
      nt.encoded ≠ enc) :
    (deleteCount st enc = 0 →
      Service.RefreshTokens env st enc = (st, .error .errTokenNotFound)) ∧
    (∀ atk rtk, deleteCount st enc ≠ 0 →
      env.issueAccessToken tok.subject tok.audience (30 * minuteNs) = some atk →
      env.issueRefreshToken tok.subject tok.audience (72 * hourNs) = some rtk →
      Service.RefreshTokens env st enc =
        (insertRefreshRow (DeleteRefreshToken st none enc).1 rtk.subject rtk.encoded
            rtk.expiration,
          .ok (atk.encoded, rtk.encoded)) ∧
      Service.RefreshTokens env
          (insertRefreshRow (DeleteRefreshToken st none enc).1 rtk.subject rtk.encoded
            rtk.expiration) enc =
        (insertRefreshRow (DeleteRefreshToken st none enc).1 rtk.subject rtk.encoded
            rtk.expiration,
          .error .errTokenNotFound)) := by
  have hrun : ∀ s : Store, Service.RefreshTokens env s enc =
      (let res := DeleteRefreshToken s none enc
       if ¬ res.2.1 then (res.1, .error .errTokenNotFound)
       else
         match env.issueAccessToken tok.subject tok.audience (30 * minuteNs) with
         | none => (res.1, .error .errInternal)
         | some accessToken =>
           match env.issueRefreshToken tok.subject tok.audience (72 * hourNs) with
           | none => (res.1, .error .errInternal)
           | some newRefreshToken =>
             (insertRefreshRow res.1 newRefreshToken.subject newRefreshToken.encoded
                newRefreshToken.expiration,
               .ok (accessToken.encoded, newRefreshToken.encoded))) := by
    intro s
    unfold Service.RefreshTokens
    rw [hdb, hdec]
    exact rfl
  constructor
  · intro hzero
    rw [hrun st]
    have hded : (DeleteRefreshToken st none enc).2.1 = false := by
      show (!(resultsEmpty (.ok (deleteCount st enc)))) = false
      rw [hzero]
      rfl
    have hzero' : (st.refresh.filter
        (fun row => row.jwt == enc && refreshRowJoined st row)).length = 0 := hzero
    have h1 : (DeleteRefreshToken st none enc).1 = st := by
      have hf := filter_not_eq_self_of_count_zero
        (fun row => row.jwt == enc && refreshRowJoined st row) st.refresh hzero'
      show Store.mk st.identity
        (st.refresh.filter (fun row => !(row.jwt == enc && refreshRowJoined st row)))
        st.nextId = st
      rw [hf]
    simp [hded, h1]
  · intro atk rtk hne hia hir
    have hrenc : rtk.encoded ≠ enc := hfresh rtk hir
    have hded : (DeleteRefreshToken st none enc).2.1 = true := by
      show (!(resultsEmpty (.ok (deleteCount st enc)))) = true
      simp [resultsEmpty, hne]
    constructor
    · rw [hrun st]
      simp [hded, hia, hir]
    · rw [hrun (insertRefreshRow (DeleteRefreshToken st none enc).1 rtk.subject rtk.encoded
        rtk.expiration)]
      have hid : (insertRefreshRow (DeleteRefreshToken st none enc).1 rtk.subject rtk.encoded
          rtk.expiration).identity = st.identity := rfl
      have hcount : deleteCount (insertRefreshRow (DeleteRefreshToken st none enc).1
          rtk.subject rtk.encoded rtk.expiration) enc = 0 := by
        unfold deleteCount
        rw [filter_nil_of_all_false]
        · rfl
        · intro row hrow
          have hrow2 : row ∈ st.refresh.filter
                (fun r0 => !(r0.jwt == enc && refreshRowJoined st r0)) ++
              ((st.identity.filter (fun i => i.handle == rtk.subject)).enum.map
                (fun p0 => RefreshRow.mk
                  ((DeleteRefreshToken st none enc).1.nextId + p0.1) p0.2.id
                  rtk.encoded rtk.expiration)) := hrow
          rw [refreshRowJoined_identity hid]
          rcases List.mem_append.mp hrow2 with hmem | hmem
          · have hp := (List.mem_filter.mp hmem).2
            have hp2 : ¬ row.jwt = enc ∨ refreshRowJoined st row = false := by
              simpa using hp
            rcases hp2 with h | h <;> simp [h]
          · rcases List.mem_map.mp hmem with ⟨q, _, heq⟩
            have hjwt : row.jwt = rtk.encoded := by rw [← heq]
            have : (row.jwt == enc) = false := by
              rw [hjwt]
              exact beq_eq_false_iff_ne.mpr hrenc
            simp [this]
      have hcount' : ((insertRefreshRow (DeleteRefreshToken st none enc).1 rtk.subject
          rtk.encoded rtk.expiration).refresh.filter
          (fun row => row.jwt == enc && refreshRowJoined (insertRefreshRow
            (DeleteRefreshToken st none enc).1 rtk.subject rtk.encoded rtk.expiration)
            row)).length = 0 := hcount
      have hded2 : (DeleteRefreshToken (insertRefreshRow (DeleteRefreshToken st none enc).1
          rtk.subject rtk.encoded rtk.expiration) none enc).2.1 = false := by
        show (!(resultsEmpty (.ok (deleteCount (insertRefreshRow
          (DeleteRefreshToken st none enc).1 rtk.subject rtk.encoded rtk.expiration)
          enc)))) = false
        rw [hcount]
        rfl
      have h1 : (DeleteRefreshToken (insertRefreshRow (DeleteRefreshToken st none enc).1
          rtk.subject rtk.encoded rtk.expiration) none enc).1 =
          insertRefreshRow (DeleteRefreshToken st none enc).1 rtk.subject rtk.encoded
            rtk.expiration := by
        have hf := filter_not_eq_self_of_count_zero
          (fun row => row.jwt == enc && refreshRowJoined (insertRefreshRow
            (DeleteRefreshToken st none enc).1 rtk.subject rtk.encoded rtk.expiration) row)
          (insertRefreshRow (DeleteRefreshToken st none enc).1 rtk.subject rtk.encoded
            rtk.expiration).refresh hcount'
        show Store.mk
          (insertRefreshRow (DeleteRefreshToken st none enc).1 rtk.subject rtk.encoded
            rtk.expiration).identity
          ((insertRefreshRow (DeleteRefreshToken st none enc).1 rtk.subject rtk.encoded
            rtk.expiration).refresh.filter
            (fun row => !(row.jwt == enc && refreshRowJoined (insertRefreshRow
              (DeleteRefreshToken st none enc).1 rtk.subject rtk.encoded rtk.expiration)
              row)))
          (insertRefreshRow (DeleteRefreshToken st none enc).1 rtk.subject rtk.encoded
            rtk.expiration).nextId =
          insertRefreshRow (DeleteRefreshToken st none enc).1 rtk.subject rtk.encoded
            rtk.expiration
        rw [hf]
      simp [hded2, h1]

/-- Witness for C3: the fixture service environment, the stored token
`"H.R.S"`, the empty-store case for the zero-rows branch, and the
populated store for the success-then-replay branch. -/
theorem refreshTokens_consume_first_witness :
    Service.RefreshTokens envService stWEmpty "H.R.S" =
      (stWEmpty, .error .errTokenNotFound) ∧
    (Service.RefreshTokens envService stW "H.R.S" =
      (insertRefreshRow (DeleteRefreshToken stW none "H.R.S").1 "alice" "RENC" 259250,
        .ok ("AENC", "RENC")) ∧
     Service.RefreshTokens envService
        (insertRefreshRow (DeleteRefreshToken stW none "H.R.S").1 "alice" "RENC" 259250)
        "H.R.S" =
      (insertRefreshRow (DeleteRefreshToken stW none "H.R.S").1 "alice" "RENC" 259250,
        .error .errTokenNotFound)) :=
  ⟨(refreshTokens_consume_first envService stWEmpty "H.R.S"
      (RefreshToken.fromClaims refreshClaimsW "H.R.S") rfl (by decide)
      (fun nt h => by
        simp [envService] at h
        rw [← h]
        decide)).1 (by decide),
    (refreshTokens_consume_first envService stW "H.R.S"
      (RefreshToken.fromClaims refreshClaimsW "H.R.S") rfl (by decide)
      (fun nt h => by
        simp [envService] at h
        rw [← h]
        decide)).2
      (AccessToken.mk "dom" 50 1850 ["aud"] "alice" "AENC")
      (RefreshToken.mk "dom" 50 259250 ["aud"] "alice" "sec2" "RENC")
      (by decide) (by decide) (by decide)⟩

/-- C5: `VerifyAuthorizationCheckCSRF` validates the refresh cookie's CSRF
secret before examining the access token: for every request whose refresh
cookie decodes successfully and every provided secret not equal to the
refresh token's secret, it returns `(nil, "", CSRFInvalid)` regardless of
the access cookie (which the environment and request remain free over),
writes no cookies, and performs no refresh (so the CSRF secret is not
rotated). -/
theorem verifyAuthorizationCheckCSRF_rejects_before_access
    (env : ClientEnv) (r : Request) (rv reqSecret : String) (rtok : RefreshToken)
    (hcookie : r.refreshCookie = some rv)
    (hdec : env.decodeRefresh rv = .ok rtok)
    (hsecret : rtok.secret ≠ reqSecret) :
    VerifyAuthorizationCheckCSRF env r reqSecret =
      ⟨none, "", some .errCSRFInvalid, [], false⟩ := by
  unfold VerifyAuthorizationCheckCSRF validateRefreshToken
  rw [hcookie]
  simp [hdec, hsecret]

/-- Witness for C5: cookies carrying refresh secret `"S"`, checked against
`"not-S"`, with a valid access cookie present. -/
theorem verifyAuthorizationCheckCSRF_rejects_before_access_witness :
    VerifyAuthorizationCheckCSRF envCSRF reqCSRF "not-S" =
      ⟨none, "", some .errCSRFInvalid, [], false⟩ :=
  verifyAuthorizationCheckCSRF_rejects_before_access envCSRF reqCSRF "REF" "not-S" refW
    rfl (by decide) (by decide)

/-- C6 (evaluation of the code at the failing input): with the access
cookie decoding to the `Expired` error — which `decodeToken` returns
wrapped in a `validateError` — and a valid refresh cookie with a reachable
auth server, `VerifyAuthorization` returns `TokenInvalid`, writes no
cookies and never attempts the refresh: `errors.Is` cannot see the wrapped
`Expired` sentinel because `validateError` has no `Unwrap`, so
`errorIsRefreshable` is `false` for every decode error. By contrast, an
absent access cookie (the bare `ErrTokenAbsent` sentinel) does trigger the
refresh. -/
theorem verifyAuthorization_expired_not_refreshed :
    VerifyAuthorization envExpired reqExpired =
      ⟨none, some .errTokenInvalid, [], false⟩ ∧
    errorIsRefreshable
      (GoError.validateError "token claims invalid" .errTokenExpired) = false ∧
    VerifyAuthorization envExpired { accessCookie := none, refreshCookie := some "REF" } =
      ⟨some newAccW, none, setTokenCookies newAccW newRefW, true⟩ := by
  exact ⟨by decide, by decide, by decide⟩

/-- C9 (evaluation of the code at the failing input): for identical valid
credentials of a registered user and a known service, the JSON form of the
login request redirects 303 with `auth_code` set, while the form-encoded
variant — whose parsed fields the handler assigns to a `req` variable that
shadows the one it later reads — responds 401 with no redirect, because
`Service.Login` runs on the zero-valued request and fails with
`AccountNotFound` for the empty handle. Unsupported media types still get
415 and a form request with a missing field still gets 400. -/
theorem apiLogin_form_json_divergence :
    (API.Login envService stW jsonReqW).1 = 303 ∧
    (API.Login envService stW jsonReqW).2.1 =
      some ⟨"http://app/cb", [("auth_code", "RENC")]⟩ ∧
    (API.Login envService stW formReqW).1 = 401 ∧
    (API.Login envService stW formReqW).2.1 = none ∧
    (API.Login envService stW
      { contentType := "text/plain", formValue := fun _ => "", jsonBody := none }).1 = 415 ∧
    (API.Login envService stW
      { formReqW with formValue := fun k =>
          if k = "handle" then "" else formReqW.formValue k }).1 = 400 := by
  exact ⟨by decide, by decide, by decide, by decide, by decide, by decide⟩

end Consent
